import Mathlib

/-
Verification of the Valkompass session controller.

The development shallowly embeds the session orchestrator (App component),
the answer-capture state machine (Quiz component), the retry policy of the
AI service wrapper, and the localStorage persistence logic.  Each definition
mirrors a concrete piece of the TypeScript source; line references point at
the corresponding source files.  React component state is modelled as an
explicit record, event handlers as state-transition functions, and the
effect hook that reacts to question changes is applied explicitly after
every transition that changes its dependencies.
-/

namespace Valkompass

/-! ## Data model (types.ts) -/

/-- Mirrors interface Question (types.ts lines 2-8). -/
structure Question where
  id : Nat
  text : String
  explanation : String
  category : String
  searchQuery : String
deriving DecidableEq, Repr

/-- Mirrors interface Answer (types.ts lines 10-15); the optional comment
field becomes an Option. -/
structure Answer where
  questionId : Nat
  value : Nat
  isImportant : Bool
  comment : Option String
deriving DecidableEq, Repr

/-- Mirrors interface AnalysisResult (types.ts lines 64-73).  The session
controller treats the analysis payload as opaque (spec section 3): it is
stored and passed through but never inspected, so the inner fields that the
claims never touch are collapsed into the summary string. -/
structure AnalysisResult where
  summary : String
deriving DecidableEq, Repr

/-- Mirrors enum AppState (types.ts lines 75-82). -/
inductive AppState where
  | INTRO
  | LOADING_QUESTIONS
  | QUIZ
  | ANALYZING
  | RESULTS
  | ERROR
deriving DecidableEq, Repr

/-- Mirrors interface SavedSession (types.ts lines 84-90); lastUpdated is
the millisecond timestamp written by Date.now(). -/
structure SavedSession where
  state : AppState
  questions : List Question
  answers : List Answer
  result : Option AnalysisResult
  lastUpdated : Nat
deriving DecidableEq, Repr

/-! ## Answer capture state machine (components/Quiz.tsx) -/

/-- The component state of Quiz (Quiz.tsx lines 15-27).  The pending
auto-advance timeout is modelled as an optional slot holding the value the
scheduled callback captured; clearTimeout empties the slot, so a cleared
callback can never fire.  The completed field records an invocation of the
onComplete callback together with the answer list passed to it. -/
structure QuizState where
  currentIndex : Nat
  answers : List Answer
  selectedValue : Option Nat
  isImportant : Bool
  comment : String
  isNuancing : Bool
  isAutoAdvancing : Bool
  timer : Option Nat
  completed : Option (List Answer)
deriving DecidableEq, Repr

/-- The initial component state of Quiz (Quiz.tsx lines 15-27): index 0,
no recorded answers, nothing selected, no timer, onComplete not called. -/
def initQuizState : QuizState :=
  { currentIndex := 0
    answers := []
    selectedValue := none
    isImportant := false
    comment := ""
    isNuancing := false
    isAutoAdvancing := false
    timer := none
    completed := none }

/-- The reset-on-new-question effect (Quiz.tsx lines 37-55): cancel any
pending timer, stop the countdown, then either restore the stored answer of
the now-current question (re-deriving isNuancing from the presence of a
non-empty comment, mirroring the boolean test on line 48) or reset the
capture fields.  The optional chaining on currentQuestion means an
out-of-range index behaves like a question with no stored answer. -/
def resetEffect (qs : List Question) (s : QuizState) : QuizState :=
  let cleared := { s with timer := none, isAutoAdvancing := false }
  match (qs.get? s.currentIndex).bind
      (fun q => s.answers.find? (fun a => a.questionId == q.id)) with
  | some ex =>
      { cleared with
        selectedValue := some ex.value
        isImportant := ex.isImportant
        comment := ex.comment.getD ""
        isNuancing := ex.comment.getD "" != "" }
  | none =>
      { cleared with
        selectedValue := none
        isImportant := false
        comment := ""
        isNuancing := false }

/-- The answer object built by saveAnswer (Quiz.tsx lines 75-80): the
comment is stored untrimmed when its trimmed form is non-empty, otherwise
it is left undefined. -/
def mkAnswerObject (qid : Nat) (value : Nat) (s : QuizState) : Answer :=
  { questionId := qid
    value := value
    isImportant := s.isImportant
    comment := if s.comment.trim != "" then some s.comment else none }

/-- The list update performed by saveAnswer (Quiz.tsx lines 71-89): find
the first entry with the same questionId and overwrite it in place,
otherwise push the new answer at the end. -/
def upsertAnswer : List Answer → Answer → List Answer
  | [], a => [a]
  | x :: xs, a =>
      if x.questionId = a.questionId then a :: xs else x :: upsertAnswer xs a

/-- goToNext (Quiz.tsx lines 91-101): commit the answer via saveAnswer,
then either advance to the next question (the reset effect fires because
currentIndex changed) or, on the last available question, invoke onComplete
with the final answer list.  Lines 96-100 call onComplete in both the
short-list branch and the full-list branch, so the two arms coincide.  The
guard against a missing current question mirrors the early return of the
component when currentQuestion is undefined (line 161): the handlers are
only reachable while a question is rendered. -/
def goToNext (qs : List Question) (finalCount : Nat) (s : QuizState)
    (value : Nat) : QuizState :=
  match qs.get? s.currentIndex with
  | none => s
  | some q =>
      let finalAnswers := upsertAnswer s.answers (mkAnswerObject q.id value s)
      let s1 := { s with answers := finalAnswers }
      if s1.currentIndex < qs.length - 1 then
        resetEffect qs { s1 with currentIndex := s1.currentIndex + 1 }
      else if qs.length < finalCount then
        resetEffect qs { s1 with completed := some finalAnswers }
      else
        resetEffect qs { s1 with completed := some finalAnswers }

/-- handleSelection (Quiz.tsx lines 116-132): record the value; when the
comment box is open do nothing further; otherwise start the visual
countdown and (re)arm the grace timer with the freshly selected value. -/
def handleSelection (value : Nat) (s : QuizState) : QuizState :=
  let s1 := { s with selectedValue := some value }
  if s1.isNuancing then s1
  else { s1 with isAutoAdvancing := true, timer := some value }

/-- stopAutoAdvance (Quiz.tsx lines 134-141), the explicit pause action:
clear the grace timer, stop the countdown, open the comment box. -/
def stopAutoAdvance (s : QuizState) : QuizState :=
  { s with timer := none, isAutoAdvancing := false, isNuancing := true }

/-- Elapse of the grace timer: the scheduled callback (Quiz.tsx lines
129-131) runs goToNext with the captured value.  A cleared or already
spent timer slot fires nothing. -/
def timerFire (qs : List Question) (finalCount : Nat) (s : QuizState) :
    QuizState :=
  match s.timer with
  | none => s
  | some v => goToNext qs finalCount { s with timer := none } v

/-- handleNextClick (Quiz.tsx lines 103-106): requires a selected value and
commits it immediately. -/
def handleNextClick (qs : List Question) (finalCount : Nat) (s : QuizState) :
    QuizState :=
  match s.selectedValue with
  | none => s
  | some v => goToNext qs finalCount s v

/-- handleBack (Quiz.tsx lines 108-113): unconditionally cancel any pending
timer, then step back one question when possible; the index change makes
the reset effect run. -/
def handleBack (qs : List Question) (s : QuizState) : QuizState :=
  let s1 := { s with timer := none }
  if 0 < s1.currentIndex then
    resetEffect qs { s1 with currentIndex := s1.currentIndex - 1 }
  else s1

/-- Uncommitted per-question interactions: selecting a value (Quiz.tsx line
116), pausing (line 134), toggling the importance flag (line 221), typing a
comment (line 318).  None of them commit an Answer. -/
inductive CaptureOp where
  | select (v : Nat)
  | pause
  | toggleImportant
  | setComment (c : String)
deriving DecidableEq, Repr

/-- Interpretation of one uncommitted interaction on the Quiz state. -/
def applyCaptureOp (s : QuizState) : CaptureOp → QuizState
  | .select v => handleSelection v s
  | .pause => stopAutoAdvance s
  | .toggleImportant => { s with isImportant := !s.isImportant }
  | .setComment c => { s with comment := c }

/-- Interpretation of a sequence of uncommitted interactions. -/
def applyCaptureOps (s : QuizState) (ops : List CaptureOp) : QuizState :=
  ops.foldl applyCaptureOp s

/-! ## Session orchestrator (App component, src/unnamed/part_001) -/

/-- The component state of App (part_001 lines 14-22): the session state
machine plus the session token held in the currentSessionId ref.  Theme
state is presentation-only and omitted. -/
structure AppSt where
  state : AppState
  questions : List Question
  answers : List Answer
  result : Option AnalysisResult
  error : Option String
  currentSessionId : Nat
deriving DecidableEq, Repr

/-- The synchronous prefix of startQuiz (part_001 lines 75-81): mint the
session token from the millisecond clock reading of Date.now(), move to
LOADING_QUESTIONS, clear the error and the question list. -/
def startQuizBegin (now : Nat) (st : AppSt) : AppSt :=
  { st with
    currentSessionId := now
    state := .LOADING_QUESTIONS
    error := none
    questions := [] }

/-- The confirmed branch of restart (part_001 lines 156-167): zero the
session token so running fetches are invalidated, clear questions, answers
and result, return to INTRO.  The call also removes the persisted snapshot
(line 165); the store side is modelled separately in clearStored. -/
def restart (st : AppSt) : AppSt :=
  { st with
    currentSessionId := 0
    questions := []
    answers := []
    result := none
    state := .INTRO }

/-- Outcome of one background batch call of generateQuestions after its own
retry policy: either a question list or exhausted failure (the catch on
part_001 lines 127-130). -/
inductive BatchOutcome where
  | success (qs : List Question)
  | failure
deriving DecidableEq, Repr

/-- The per-batch dedup filter (part_001 lines 114-115): drop every
incoming question whose id is already present in the given list. -/
def dedupeNew (have_ : List Question) (newQs : List Question) : List Question :=
  newQs.filter (fun q => !(have_.any (fun p => p.id == q.id)))

/-- The setQuestions updater of the background loop (part_001 lines
121-125): re-filter against the visible list, then append. -/
def mergeVisible (prev : List Question) (uniqueNew : List Question) :
    List Question :=
  prev ++ dedupeNew prev uniqueNew

/-- One iteration of the background batch loop (part_001 lines 105-131). A
returned none means the loop breaks: either the token guard on lines 106
and 111 failed (the current session token no longer matches the token this
run captured) or the batch failed after retries (lines 127-130).  On
success the local accumulator grows by the deduped questions and the
visible question list is updated through mergeVisible. -/
def bgProcessOutcome (token : Nat) (acc : List Question) (st : AppSt)
    (oc : BatchOutcome) : Option (List Question × AppSt) :=
  if st.currentSessionId ≠ token then none
  else
    match oc with
    | .failure => none
    | .success newQs =>
        let uniqueNew := dedupeNew acc newQs
        some (acc ++ uniqueNew,
          { st with questions := mergeVisible st.questions uniqueNew })

/-- The background batch loop (part_001 lines 105-131) run over a sequence
of batch outcomes: a break leaves the state as it stands and dispatches no
further batch. -/
def bgLoop (token : Nat) (acc : List Question) (st : AppSt) :
    List BatchOutcome → AppSt
  | [] => st
  | oc :: rest =>
      match bgProcessOutcome token acc st oc with
      | none => st
      | some (acc1, st1) => bgLoop token acc1 st1 rest

/-- The Fortsätt session button (part_001 lines 248-259): jump to RESULTS
when a non-empty question list and a result exist, otherwise to QUIZ. -/
def resumeTarget (questions : List Question) (result : Option AnalysisResult) :
    AppState :=
  if 0 < questions.length ∧ result.isSome then .RESULTS else .QUIZ

/-! ## Persistence (part_001 lines 33-47 and 156-167) -/

/-- Milliseconds in the 24 hour TTL (part_001 line 37). -/
def ttlMs : Nat := 1000 * 60 * 60 * 24

/-- Content of the localStorage session key: either a parseable
SavedSession or a string JSON.parse rejects. -/
inductive StoredValue where
  | corrupt
  | valid (s : SavedSession)
deriving DecidableEq, Repr

/-- Restoration of the component state from a snapshot (part_001 lines
38-41). -/
def restoreFrom (s : SavedSession) (st : AppSt) : AppSt :=
  { st with
    questions := s.questions
    answers := s.answers
    result := s.result
    state := s.state }

/-- The session load effect (part_001 lines 33-47).  Returns the new
component state together with the store content after the effect ran.  A
missing key leaves everything untouched; corrupt data hits the catch and is
removed (line 45); a parseable snapshot is restored exactly when
Date.now() minus lastUpdated is strictly below the TTL, and in both the
fresh and the stale case the stored value is left in place: the effect has
no removal in the stale branch. -/
def loadSession (now : Nat) (stored : Option StoredValue) (st : AppSt) :
    AppSt × Option StoredValue :=
  match stored with
  | none => (st, none)
  | some .corrupt => (st, none)
  | some (.valid s) =>
      if (now : Int) - (s.lastUpdated : Int) < (ttlMs : Int) then
        (restoreFrom s st, some (.valid s))
      else
        (st, some (.valid s))

/-! ## Retry policy (types.ts service section, retryOperation lines 113-128) -/

/-- Classification of an upstream error.  The flag mirrors the isRateLimit
test on line 119: the message names 429, 503 or quota (a transient error);
everything else, such as the missing API key of line 107, is fatal. -/
structure SvcError where
  isRateLimit : Bool
deriving DecidableEq, Repr

/-- Observable trace of one retryOperation run: the final outcome, the
backoff sleeps actually awaited (in order, in milliseconds), and how many
times the wrapped operation was attempted. -/
structure RetryTrace (α : Type) where
  result : Except SvcError α
  slept : List Nat
  attempts : Nat
deriving Repr

/-- The body of the for loop of retryOperation (types.ts lines 115-126),
iterating over the attempt indices 0, 1, ..., maxRetries - 1.  On attempt i
a failure escalates immediately when i is the last allowed attempt or the
error is not rate-limited (line 120); otherwise the call sleeps the current
delay, doubles it and retries.  The empty-list arm models the final throw
on line 127, reachable only when maxRetries is 0. -/
def retryLoop {α : Type} (op : Nat → Except SvcError α) (maxRetries : Nat) :
    List Nat → Nat → List Nat → Nat → RetryTrace α
  | [], _, slept, att => ⟨.error ⟨false⟩, slept, att⟩
  | i :: rest, delay, slept, att =>
      match op i with
      | .ok a => ⟨.ok a, slept, att + 1⟩
      | .error e =>
          if (i == maxRetries - 1) || !e.isRateLimit then
            ⟨.error e, slept, att + 1⟩
          else
            retryLoop op maxRetries rest (delay * 2) (slept ++ [delay])
              (att + 1)

/-- retryOperation (types.ts lines 113-128) with its initial delay of
1000ms and the default of 3 attempts supplied at both call sites. -/
def retryOperation {α : Type} (op : Nat → Except SvcError α)
    (maxRetries : Nat := 3) : RetryTrace α :=
  retryLoop op maxRetries (List.range maxRetries) 1000 [] 0

/-! ## Sample data for witnesses and counterexamples -/

/-- A sample question with a given id. -/
def sampleQ (n : Nat) : Question :=
  { id := n, text := "T", explanation := "E", category := "K", searchQuery := "S" }

/-- A fresh App component state. -/
def sampleApp : AppSt :=
  { state := .INTRO, questions := [], answers := [], result := none,
    error := none, currentSessionId := 0 }

/-- An App state with a running session, used as a concrete input. -/
def sampleRunning : AppSt :=
  { state := .QUIZ, questions := [sampleQ 1], answers := [], result := none,
    error := none, currentSessionId := 2 }

/-- A first commit for questionId 7. -/
def sampleAnswerA : Answer :=
  { questionId := 7, value := 2, isImportant := false, comment := none }

/-- A second commit for questionId 7. -/
def sampleAnswerB : Answer :=
  { questionId := 7, value := 5, isImportant := true, comment := some "skal" }

/-- The five questions of the C5 scenario. -/
def sampleFiveQs : List Question :=
  [sampleQ 1, sampleQ 2, sampleQ 3, sampleQ 4, sampleQ 5]

/-- A quiz state sitting on the fifth and last available question. -/
def sampleQuizAtLast : QuizState :=
  { initQuizState with currentIndex := 4 }

/-- A quiz state sitting on the second question, the first one answered. -/
def sampleQuizAtSecond : QuizState :=
  { initQuizState with currentIndex := 1 }

/-- A snapshot whose lastUpdated lies 25 hours before the load. -/
def sampleExpiredSession : SavedSession :=
  { state := .QUIZ, questions := [sampleQ 1], answers := [], result := none,
    lastUpdated := 0 }

/-- A snapshot whose lastUpdated lies half a second before the load. -/
def sampleFreshSession : SavedSession :=
  { state := .QUIZ, questions := [sampleQ 1], answers := [], result := none,
    lastUpdated := 500 }

/-- An operation failing with a rate-limit error on every attempt. -/
def opTransientFail : Nat → Except SvcError Unit := fun _ => .error ⟨true⟩

/-- A stored answer for the question with id 1. -/
def sampleAnswerQ1 : Answer :=
  { questionId := 1, value := 4, isImportant := false, comment := none }

/-- Follows the words of the spec (section 4.1, resume): the index of the
first question without a stored Answer.  Declared only to compare the
resume positioning the spec describes against the one the code
implements. -/
def specFirstUnansweredIndex (questions : List Question)
    (answers : List Answer) : Nat :=
  questions.findIdx (fun q => !(answers.any (fun a => a.questionId == q.id)))

/-! ## Helper lemmas about the answer upsert -/

/-- After an upsert, looking up the key of the inserted answer finds
exactly the inserted answer. -/
theorem find?_upsert_self (l : List Answer) (a : Answer) :
    (upsertAnswer l a).find? (fun x => x.questionId == a.questionId)
      = some a := by
  induction l with
  | nil => simp [upsertAnswer, List.find?]
  | cons x xs ih =>
      by_cases h : x.questionId = a.questionId
      · simp [upsertAnswer, h, List.find?]
      · simp [upsertAnswer, h, List.find?, ih]

/-- An upsert for a different key leaves lookups for this key unchanged. -/
theorem find?_upsert_ne (l : List Answer) (b : Answer) (qid : Nat)
    (h : b.questionId ≠ qid) :
    (upsertAnswer l b).find? (fun x => x.questionId == qid)
      = l.find? (fun x => x.questionId == qid) := by
  have hb : (b.questionId == qid) = false := beq_eq_false_iff_ne.mpr h
  induction l with
  | nil => simp [upsertAnswer, List.find?, hb]
  | cons x xs ih =>
      by_cases hx : x.questionId = b.questionId
      · have hxq : (x.questionId == qid) = false :=
          beq_eq_false_iff_ne.mpr (by rw [hx]; exact h)
        simp [upsertAnswer, hx, List.find?, hb, hxq]
      · simp [upsertAnswer, hx, List.find?, ih]

/-- When at most one entry for the key is present, an upsert leaves exactly
one entry for the key, namely the inserted answer. -/
theorem filter_upsert_self (l : List Answer) (a : Answer)
    (h : (l.filter (fun x => x.questionId == a.questionId)).length ≤ 1) :
    (upsertAnswer l a).filter (fun x => x.questionId == a.questionId)
      = [a] := by
  induction l with
  | nil => simp [upsertAnswer]
  | cons x xs ih =>
      by_cases hx : x.questionId = a.questionId
      · have hcons : (x :: xs).filter (fun y => y.questionId == a.questionId)
            = x :: xs.filter (fun y => y.questionId == a.questionId) := by
          simp [List.filter_cons, hx]
        rw [hcons, List.length_cons] at h
        have hlen :
            (xs.filter (fun y => y.questionId == a.questionId)).length = 0 := by
          omega
        have hxs := List.length_eq_zero.mp hlen
        simp [upsertAnswer, hx, List.filter_cons, hxs]
      · have h2 :
            (xs.filter (fun y => y.questionId == a.questionId)).length ≤ 1 := by
          simpa [List.filter_cons, hx] using h
        simp [upsertAnswer, hx, List.filter_cons, ih h2]

/-! ## Helper lemmas about the Quiz transitions -/

/-- The reset effect never changes the recorded answers. -/
theorem resetEffect_answers (qs : List Question) (s : QuizState) :
    (resetEffect qs s).answers = s.answers := by
  unfold resetEffect
  split <;> rfl

/-- The reset effect never changes the current index. -/
theorem resetEffect_currentIndex (qs : List Question) (s : QuizState) :
    (resetEffect qs s).currentIndex = s.currentIndex := by
  unfold resetEffect
  split <;> rfl

/-- The reset effect never changes the completion record. -/
theorem resetEffect_completed (qs : List Question) (s : QuizState) :
    (resetEffect qs s).completed = s.completed := by
  unfold resetEffect
  split <;> rfl

/-- The reset effect always cancels the pending timer. -/
theorem resetEffect_timer (qs : List Question) (s : QuizState) :
    (resetEffect qs s).timer = none := by
  unfold resetEffect
  split <;> rfl

/-- A cleared timer slot fires nothing. -/
theorem timerFire_of_timer_none (qs : List Question) (finalCount : Nat)
    (s : QuizState) (h : s.timer = none) : timerFire qs finalCount s = s := by
  simp [timerFire, h]

/-- Selecting a value always records it, in both the nuancing and the
timer-arming branch. -/
theorem handleSelection_selectedValue (v : Nat) (s : QuizState) :
    (handleSelection v s).selectedValue = some v := by
  by_cases h : s.isNuancing <;> simp [handleSelection, h]

/-- Selecting a value never changes the current index. -/
theorem handleSelection_currentIndex (v : Nat) (s : QuizState) :
    (handleSelection v s).currentIndex = s.currentIndex := by
  by_cases h : s.isNuancing <;> simp [handleSelection, h]

/-- Selecting a value never touches the recorded answers. -/
theorem handleSelection_answers (v : Nat) (s : QuizState) :
    (handleSelection v s).answers = s.answers := by
  by_cases h : s.isNuancing <;> simp [handleSelection, h]

/-- On a non-last question, committing advances by one and records the
answer through the upsert; the reset effect then runs on the new index. -/
theorem goToNext_advance (qs : List Question) (finalCount : Nat)
    (s : QuizState) (v : Nat) (q : Question)
    (hq : qs.get? s.currentIndex = some q)
    (hlt : s.currentIndex < qs.length - 1) :
    goToNext qs finalCount s v
      = resetEffect qs
          { s with
            answers := upsertAnswer s.answers (mkAnswerObject q.id v s),
            currentIndex := s.currentIndex + 1 } := by
  have hq2 : qs[s.currentIndex]? = some q := by
    rw [← List.get?_eq_getElem?]
    exact hq
  simp [goToNext, hq2, hlt]

/-- When the now-current question has no stored answer, the reset effect
clears the capture fields. -/
theorem resetEffect_of_none (qs : List Question) (s : QuizState)
    (h : (qs.get? s.currentIndex).bind
        (fun q => s.answers.find? (fun a => a.questionId == q.id)) = none) :
    resetEffect qs s
      = { s with
          timer := none, isAutoAdvancing := false,
          selectedValue := none, isImportant := false, comment := "",
          isNuancing := false } := by
  unfold resetEffect
  rw [h]

/-- One uncommitted interaction never touches the recorded answers. -/
theorem applyCaptureOp_answers (s : QuizState) (op : CaptureOp) :
    (applyCaptureOp s op).answers = s.answers := by
  cases op with
  | select v =>
      by_cases h : s.isNuancing <;> simp [applyCaptureOp, handleSelection, h]
  | pause => rfl
  | toggleImportant => rfl
  | setComment c => rfl

/-- One uncommitted interaction never changes the current index. -/
theorem applyCaptureOp_currentIndex (s : QuizState) (op : CaptureOp) :
    (applyCaptureOp s op).currentIndex = s.currentIndex := by
  cases op with
  | select v =>
      by_cases h : s.isNuancing <;> simp [applyCaptureOp, handleSelection, h]
  | pause => rfl
  | toggleImportant => rfl
  | setComment c => rfl

/-- Uncommitted interactions never touch the recorded answers. -/
theorem applyCaptureOps_answers (ops : List CaptureOp) (s : QuizState) :
    (applyCaptureOps s ops).answers = s.answers := by
  induction ops generalizing s with
  | nil => rfl
  | cons op rest ih =>
      have hstep :
          applyCaptureOps s (op :: rest)
            = applyCaptureOps (applyCaptureOp s op) rest := rfl
      rw [hstep, ih, applyCaptureOp_answers]

/-- Uncommitted interactions never change the current index. -/
theorem applyCaptureOps_currentIndex (ops : List CaptureOp) (s : QuizState) :
    (applyCaptureOps s ops).currentIndex = s.currentIndex := by
  induction ops generalizing s with
  | nil => rfl
  | cons op rest ih =>
      have hstep :
          applyCaptureOps s (op :: rest)
            = applyCaptureOps (applyCaptureOp s op) rest := rfl
      rw [hstep, ih, applyCaptureOp_currentIndex]

/-! ## Claim theorems -/

/-- C1: a background batch completion whose captured session token differs
from the current token is fully discarded: the loop breaks without touching
the question list, answer set, result or session state.  In particular,
after restart zeroes the token, a still in-flight batch minted with any
positive clock reading (Date.now is positive in every run) leaves the
fresh post-restart state byte-identical. -/
theorem restart_discards_inflight_batch (st0 : AppSt) (token : Nat)
    (htok : 0 < token) (acc : List Question) (ocs : List BatchOutcome)
    (st : AppSt) (hst : st.currentSessionId ≠ token) :
    bgLoop token acc st ocs = st ∧
    bgLoop token acc (restart st0) ocs = restart st0 := by
  have main : ∀ (acc2 : List Question) (st2 : AppSt),
      st2.currentSessionId ≠ token →
      ∀ ocs2 : List BatchOutcome, bgLoop token acc2 st2 ocs2 = st2 := by
    intro acc2 st2 h2 ocs2
    cases ocs2 with
    | nil => rfl
    | cons oc rest => simp [bgLoop, bgProcessOutcome, h2]
  refine ⟨main acc st hst ocs, main acc (restart st0) ?_ ocs⟩
  simp only [restart]
  omega

/-- Witness for C1: a batch carrying token 1 completing after restart
leaves the post-restart state unchanged. -/
theorem restart_discards_inflight_batch_witness :
    bgLoop 1 [] (restart sampleRunning) [.success [sampleQ 6]]
      = restart sampleRunning :=
  (restart_discards_inflight_batch sampleRunning 1 (by decide) []
    [.success [sampleQ 6]] sampleRunning (by decide)).2

/-- C3: committing a sequence of answers for the same questionId against
an answer set holding at most one entry for that questionId leaves exactly
one entry for it, namely the most recent commit; earlier entries are
replaced, never appended. -/
theorem answers_upsert_most_recent (start : List Answer) (qid : Nat)
    (commits : List Answer) (final : Answer)
    (hstart : (start.filter (fun a => a.questionId == qid)).length ≤ 1)
    (hall : ∀ a ∈ commits, a.questionId = qid)
    (hfinal : final.questionId = qid) :
    ((commits ++ [final]).foldl upsertAnswer start).filter
        (fun a => a.questionId == qid) = [final] := by
  subst hfinal
  induction commits generalizing start with
  | nil => simpa using filter_upsert_self start final hstart
  | cons c cs ih =>
      have hc : c.questionId = final.questionId := hall c (by simp)
      have h1 := filter_upsert_self start c (by rw [hc]; exact hstart)
      rw [hc] at h1
      have hnext : ((upsertAnswer start c).filter
          (fun a => a.questionId == final.questionId)).length ≤ 1 := by
        simp [h1]
      have hstep : ((c :: cs) ++ [final]).foldl upsertAnswer start
          = (cs ++ [final]).foldl upsertAnswer (upsertAnswer start c) := rfl
      rw [hstep]
      exact ih (upsertAnswer start c) hnext (fun a ha => hall a (by simp [ha]))

/-- Witness for C3: after two commits for questionId 7 the answer set
holds exactly the second commit. -/
theorem answers_upsert_most_recent_witness :
    (([sampleAnswerA] ++ [sampleAnswerB]).foldl upsertAnswer []).filter
        (fun a => a.questionId == 7) = [sampleAnswerB] :=
  answers_upsert_most_recent [] 7 [sampleAnswerA] sampleAnswerB (by decide)
    (by decide) (by decide)

/-- C4: merging a batch through the dedup filters keeps the previously
visible questions as a prefix, appends only questions whose id is neither
in the accumulator nor in the visible list, and grows the visible count by
exactly the number of genuinely new incoming questions — a duplicate id is
silently dropped (the merge is a total function; no error path exists). -/
theorem dedupe_merge_no_duplicates (acc prev newQs : List Question) :
    (mergeVisible prev (dedupeNew acc newQs)).take prev.length = prev ∧
    ((mergeVisible prev (dedupeNew acc newQs)).drop prev.length).all
      (fun q => !(prev.any (fun p => p.id == q.id))
        && !(acc.any (fun p => p.id == q.id))) = true ∧
    (mergeVisible prev (dedupeNew acc newQs)).length =
      prev.length + (newQs.filter
        (fun q => !(prev.any (fun p => p.id == q.id))
          && !(acc.any (fun p => p.id == q.id)))).length := by
  have hdd : dedupeNew prev (dedupeNew acc newQs)
      = newQs.filter (fun q => !(prev.any (fun p => p.id == q.id))
          && !(acc.any (fun p => p.id == q.id))) := by
    simp [dedupeNew, List.filter_filter]
  refine ⟨?_, ?_, ?_⟩
  · show (prev ++ dedupeNew prev (dedupeNew acc newQs)).take prev.length = prev
    exact List.take_left prev _
  · show ((prev ++ dedupeNew prev (dedupeNew acc newQs)).drop prev.length).all
        _ = true
    rw [List.drop_left, hdd, List.all_eq_true]
    intro q hq
    exact (List.mem_filter.mp hq).2
  · show (prev ++ dedupeNew prev (dedupeNew acc newQs)).length = _
    rw [List.length_append, hdd]

/-- C5: a failed background batch breaks the loop with the App state,
question list included, byte-identical (so no transition to ERROR and no
loss of arrived questions), and committing an answer on the last available
question while fewer questions than the nominal target exist invokes
onComplete with exactly the accumulated answers. -/
theorem bg_failure_halts_quiz_completable (token : Nat) (acc : List Question)
    (st : AppSt) (rest : List BatchOutcome) (qs : List Question)
    (finalCount : Nat) (s : QuizState) (v : Nat) (q : Question)
    (hq : qs.get? s.currentIndex = some q)
    (hlast : s.currentIndex = qs.length - 1)
    (hlt : qs.length < finalCount) :
    bgLoop token acc st (.failure :: rest) = st ∧
    (goToNext qs finalCount s v).completed =
      some (upsertAnswer s.answers (mkAnswerObject q.id v s)) := by
  constructor
  · by_cases h : st.currentSessionId = token
    · simp [bgLoop, bgProcessOutcome, h]
    · simp [bgLoop, bgProcessOutcome, h]
  · have hidx : s.currentIndex < qs.length := by
      rcases List.get?_eq_some.mp hq with ⟨hlt2, _⟩
      exact hlt2
    have hnot : ¬ (s.currentIndex < qs.length - 1) := by omega
    have hq2 : qs[s.currentIndex]? = some q := by
      rw [← List.get?_eq_getElem?]
      exact hq
    simp [goToNext, hq2, hnot, hlt, resetEffect_completed]

/-- Witness for C5: with 5 questions and nominal target 50, committing on
the last question completes the quiz with the collected answers. -/
theorem bg_failure_halts_quiz_completable_witness :
    (goToNext sampleFiveQs 50 sampleQuizAtLast 3).completed =
      some (upsertAnswer sampleQuizAtLast.answers
        (mkAnswerObject (sampleQ 5).id 3 sampleQuizAtLast)) :=
  (bg_failure_halts_quiz_completable 1 [] sampleApp [] sampleFiveQs 50
    sampleQuizAtLast 3 (sampleQ 5) (by decide) (by decide) (by decide)).2

/-- C6 counterexample: two starts within the same millisecond mint equal
session tokens, so the later token is not strictly greater than the
earlier one — Date.now carries no strictness guarantee. -/
theorem session_token_not_strict_counterexample :
    ¬ ((startQuizBegin 100 (startQuizBegin 100 sampleApp)).currentSessionId >
        (startQuizBegin 100 sampleApp).currentSessionId) := by
  decide

/-- C6 amended: the token minted by start equals the millisecond clock
reading, so across two starts the later token is greater than or equal to
every earlier one, and strictly greater exactly when the clock advanced
between the starts. -/
theorem session_token_monotone (st1 st2 : AppSt) (now1 now2 : Nat)
    (h : now1 ≤ now2) :
    (startQuizBegin now1 st1).currentSessionId ≤
        (startQuizBegin now2 st2).currentSessionId ∧
    (now1 < now2 →
      (startQuizBegin now1 st1).currentSessionId <
        (startQuizBegin now2 st2).currentSessionId) :=
  ⟨h, fun h2 => h2⟩

/-- Witness for the amended C6 at clock readings 100 and 200. -/
theorem session_token_monotone_witness :
    (startQuizBegin 100 sampleApp).currentSessionId ≤
      (startQuizBegin 200 sampleApp).currentSessionId :=
  (session_token_monotone sampleApp sampleApp 100 200 (by decide)).1

/-- C7 counterexample: loading at clock 90000000 (25 hours after
lastUpdated 0, past the 24 hour TTL of 86400000) leaves the component
state untouched, yet the stored value is NOT cleared — the stale branch of
the load effect has no removal, so the claim that an expired snapshot is
cleared from the store is false at this input. -/
theorem ttl_expired_kept_counterexample :
    (loadSession 90000000 (some (.valid sampleExpiredSession)) sampleApp).1
        = sampleApp ∧
    (loadSession 90000000 (some (.valid sampleExpiredSession)) sampleApp).2
        ≠ none := by
  decide

/-- C7 amended: load restores the snapshot exactly when now minus
lastUpdated is strictly below the 24 hour TTL; an older snapshot is
treated as absent (state untouched) but remains in the store; only
corrupt stored data is cleared, and an absent key stays absent. -/
theorem ttl_load_behavior (now : Nat) (st : AppSt) (s : SavedSession) :
    ((now : Int) - (s.lastUpdated : Int) < (ttlMs : Int) →
      loadSession now (some (.valid s)) st
        = (restoreFrom s st, some (.valid s))) ∧
    ((ttlMs : Int) ≤ (now : Int) - (s.lastUpdated : Int) →
      loadSession now (some (.valid s)) st = (st, some (.valid s))) ∧
    loadSession now (some .corrupt) st = (st, none) ∧
    loadSession now none st = (st, none) := by
  refine ⟨fun h => ?_, fun h => ?_, rfl, rfl⟩
  · simp [loadSession, h]
  · have hn : ¬ ((now : Int) - (s.lastUpdated : Int) < (ttlMs : Int)) :=
      not_lt.mpr h
    simp [loadSession, hn]

/-- Witness for the amended C7: a fresh snapshot is restored and kept. -/
theorem ttl_load_behavior_witness :
    loadSession 1000 (some (.valid sampleFreshSession)) sampleApp
      = (restoreFrom sampleFreshSession sampleApp,
          some (.valid sampleFreshSession)) :=
  (ttl_load_behavior 1000 sampleApp sampleFreshSession).1 (by decide)

/-- C8 counterexample: with every attempt failing transiently,
retryOperation sleeps 1000ms and then 2000ms — only two backoff waits
occur, so the claimed backoff sequence of 1s, 2s and 4s is false: the 4s
delay is computed but never awaited because the third failed attempt
escalates immediately. -/
theorem retry_backoff_counterexample :
    (retryOperation opTransientFail 3).slept = [1000, 2000] ∧
    ([1000, 2000] : List Nat) ≠ [1000, 2000, 4000] :=
  ⟨rfl, by decide⟩

/-- C8 amended: a transiently failing call is attempted up to 3 times
with backoff waits of 1s and then 2s before the third failure escalates,
while a non-rate-limited error is never retried: it propagates after the
first attempt with no backoff wait at all. -/
theorem retry_policy_behavior {α : Type} (op : Nat → Except SvcError α)
    (e : Nat → SvcError) :
    ((∀ i, i < 3 → op i = .error (e i)) →
      (∀ i, i < 3 → (e i).isRateLimit = true) →
      retryOperation op 3 = ⟨.error (e 2), [1000, 2000], 3⟩) ∧
    (∀ e0 : SvcError, op 0 = .error e0 → e0.isRateLimit = false →
      retryOperation op 3 = ⟨.error e0, [], 1⟩) := by
  constructor
  · intro hop hrate
    have h0 := hop 0 (by omega)
    have h1 := hop 1 (by omega)
    have h2 := hop 2 (by omega)
    have r0 := hrate 0 (by omega)
    have r1 := hrate 1 (by omega)
    have r2 := hrate 2 (by omega)
    have hrange : List.range 3 = [0, 1, 2] := rfl
    simp [retryOperation, hrange, retryLoop, h0, h1, h2, r0, r1, r2]
  · intro e0 h0 hr
    have hrange : List.range 3 = [0, 1, 2] := rfl
    simp [retryOperation, hrange, retryLoop, h0, hr]

/-- Witness for the amended C8: the all-transient trace at a concrete
operation. -/
theorem retry_policy_behavior_witness :
    retryOperation opTransientFail 3
      = ⟨.error ⟨true⟩, [1000, 2000], 3⟩ :=
  (retry_policy_behavior opTransientFail (fun _ => ⟨true⟩)).1
    (fun _ _ => rfl) (fun _ _ => rfl)

/-- C9 counterexample: resuming a session with questions 1 and 2, a saved
answer for question 1 and no result enters QUIZ, but the Quiz component
mounts at index 0 (its initial state, unchanged by the mount effect),
while the first unanswered question per the spec sits at index 1 — the
resume position is not the first unanswered question. -/
theorem resume_position_counterexample :
    resumeTarget [sampleQ 1, sampleQ 2] none = AppState.QUIZ ∧
    initQuizState.currentIndex = 0 ∧
    (resetEffect [sampleQ 1, sampleQ 2] initQuizState).currentIndex = 0 ∧
    specFirstUnansweredIndex [sampleQ 1, sampleQ 2] [sampleAnswerQ1] = 1 ∧
    (0 : Nat) ≠ 1 := by
  decide

/-- C9 amended: resume jumps to RESULTS when a non-empty question list and
a result exist and to QUIZ otherwise, and the quiz is then positioned at
the first question (index 0) with an empty in-quiz answer set — the
position is not derived from the stored answers. -/
theorem resume_behavior (qs : List Question) (res : Option AnalysisResult)
    (qs2 : List Question) :
    (qs ≠ [] → res.isSome → resumeTarget qs res = .RESULTS) ∧
    (res.isSome = false → resumeTarget qs res = .QUIZ) ∧
    initQuizState.currentIndex = 0 ∧
    initQuizState.answers = [] ∧
    (resetEffect qs2 initQuizState).currentIndex = 0 := by
  refine ⟨fun hne hsome => ?_, fun hnone => ?_, rfl, rfl, ?_⟩
  · simp [resumeTarget, List.length_pos.mpr hne, hsome]
  · simp [resumeTarget, hnone]
  · rw [resetEffect_currentIndex]
    rfl

/-- Witness for the amended C9: with questions and a result present,
resume jumps to RESULTS. -/
theorem resume_behavior_witness :
    resumeTarget [sampleQ 1] (some { summary := "S" }) = AppState.RESULTS :=
  (resume_behavior [sampleQ 1] (some { summary := "S" }) []).1 (by decide)
    (by decide)

/-- C2: after selecting value v on a non-last question while the comment
box is closed, the explicit pause action cancels the grace timer so a
later elapse of the scheduled delay changes nothing (no auto-advance),
while leaving the timer untouched for the full delay commits exactly the
answer with value v and advances the index by exactly one; a second elapse
is a no-op, so the advance happens exactly once. -/
theorem grace_timer_behavior (qs : List Question) (finalCount : Nat)
    (s : QuizState) (v : Nat) (q : Question)
    (hn : s.isNuancing = false)
    (hq : qs.get? s.currentIndex = some q)
    (hi : s.currentIndex + 1 < qs.length) :
    timerFire qs finalCount (stopAutoAdvance (handleSelection v s))
        = stopAutoAdvance (handleSelection v s) ∧
    (stopAutoAdvance (handleSelection v s)).currentIndex = s.currentIndex ∧
    (timerFire qs finalCount (handleSelection v s)).currentIndex
        = s.currentIndex + 1 ∧
    (timerFire qs finalCount (handleSelection v s)).answers.find?
        (fun a => a.questionId == q.id)
        = some (mkAnswerObject q.id v s) ∧
    timerFire qs finalCount (timerFire qs finalCount (handleSelection v s))
        = timerFire qs finalCount (handleSelection v s) := by
  have hs1 : handleSelection v s
      = { s with
          selectedValue := some v, isAutoAdvancing := true,
          timer := some v } := by
    simp [handleSelection, hn]
  have hlt : s.currentIndex < qs.length - 1 := by omega
  have hfire : timerFire qs finalCount (handleSelection v s)
      = resetEffect qs
          { s with
            selectedValue := some v, isAutoAdvancing := true, timer := none,
            answers := upsertAnswer s.answers (mkAnswerObject q.id v s),
            currentIndex := s.currentIndex + 1 } := by
    rw [hs1]
    have hstep : timerFire qs finalCount
        ({ s with
           selectedValue := some v, isAutoAdvancing := true,
           timer := some v } : QuizState)
        = goToNext qs finalCount
            ({ s with
               selectedValue := some v, isAutoAdvancing := true,
               timer := none } : QuizState) v := rfl
    rw [hstep]
    exact goToNext_advance qs finalCount _ v q hq hlt
  refine ⟨?_, ?_, ?_, ?_, ?_⟩
  · exact timerFire_of_timer_none qs finalCount _ rfl
  · rw [hs1]
    rfl
  · rw [hfire, resetEffect_currentIndex]
  · rw [hfire, resetEffect_answers]
    have h := find?_upsert_self s.answers (mkAnswerObject q.id v s)
    simpa [mkAnswerObject] using h
  · rw [hfire]
    exact timerFire_of_timer_none qs finalCount _ (resetEffect_timer qs _)

/-- Witness for C2: after selecting value 3 on the first of two questions
and letting the full delay elapse, the quiz sits on the second question. -/
theorem grace_timer_behavior_witness :
    (timerFire [sampleQ 1, sampleQ 2] 50
        (handleSelection 3 initQuizState)).currentIndex
      = initQuizState.currentIndex + 1 :=
  (grace_timer_behavior [sampleQ 1, sampleQ 2] 50 initQuizState 3 (sampleQ 1)
    rfl (by decide) (by decide)).2.2.1

/-- C10: selecting, pausing, toggling importance or typing a comment on a
question with no stored answer and then pressing Back commits nothing (the
answer set is unchanged and the index steps back by one), and revisiting
the question by committing value v2 on the previous question resets the
capture state to no selection, importance off, empty comment and closed
comment box, still with no stored Answer for the revisited question. -/
theorem back_discards_uncommitted (qs : List Question) (finalCount : Nat)
    (s : QuizState) (ops : List CaptureOp) (q qprev : Question) (v2 : Nat)
    (hq : qs.get? s.currentIndex = some q)
    (hprev : qs.get? (s.currentIndex - 1) = some qprev)
    (hpos : 0 < s.currentIndex)
    (hids : qprev.id ≠ q.id)
    (hnoans : s.answers.find? (fun a => a.questionId == q.id) = none) :
    (handleBack qs (applyCaptureOps s ops)).answers = s.answers ∧
    (handleBack qs (applyCaptureOps s ops)).currentIndex
        = s.currentIndex - 1 ∧
    (handleNextClick qs finalCount (handleSelection v2
        (handleBack qs (applyCaptureOps s ops)))).currentIndex
      = s.currentIndex ∧
    (handleNextClick qs finalCount (handleSelection v2
        (handleBack qs (applyCaptureOps s ops)))).selectedValue = none ∧
    (handleNextClick qs finalCount (handleSelection v2
        (handleBack qs (applyCaptureOps s ops)))).isImportant = false ∧
    (handleNextClick qs finalCount (handleSelection v2
        (handleBack qs (applyCaptureOps s ops)))).comment = "" ∧
    (handleNextClick qs finalCount (handleSelection v2
        (handleBack qs (applyCaptureOps s ops)))).isNuancing = false ∧
    (handleNextClick qs finalCount (handleSelection v2
        (handleBack qs (applyCaptureOps s ops)))).answers.find?
        (fun a => a.questionId == q.id) = none := by
  have hidx : s.currentIndex < qs.length := by
    rcases List.get?_eq_some.mp hq with ⟨hlt2, _⟩
    exact hlt2
  set t := applyCaptureOps s ops with htdef
  have hta : t.answers = s.answers := applyCaptureOps_answers ops s
  have hti : t.currentIndex = s.currentIndex := applyCaptureOps_currentIndex ops s
  have hb : handleBack qs t
      = resetEffect qs
          { t with timer := none, currentIndex := s.currentIndex - 1 } := by
    simp [handleBack, hti, hpos]
  have hans1 : (handleBack qs t).answers = s.answers := by
    rw [hb, resetEffect_answers]
    exact hta
  have hidx1 : (handleBack qs t).currentIndex = s.currentIndex - 1 := by
    rw [hb, resetEffect_currentIndex]
  set u := handleSelection v2 (handleBack qs t) with hudef
  have husel : u.selectedValue = some v2 := by
    rw [hudef]
    exact handleSelection_selectedValue v2 _
  have huidx : u.currentIndex = s.currentIndex - 1 := by
    rw [hudef, handleSelection_currentIndex]
    exact hidx1
  have huans : u.answers = s.answers := by
    rw [hudef, handleSelection_answers]
    exact hans1
  have hnc : handleNextClick qs finalCount u = goToNext qs finalCount u v2 := by
    simp [handleNextClick, husel]
  have hql : qs.get? u.currentIndex = some qprev := by
    rw [huidx]
    exact hprev
  have hlt2 : u.currentIndex < qs.length - 1 := by
    rw [huidx]
    omega
  have hadv := goToNext_advance qs finalCount u v2 qprev hql hlt2
  have harith : s.currentIndex - 1 + 1 = s.currentIndex := by omega
  have hWidx : ({ u with
      answers := upsertAnswer u.answers (mkAnswerObject qprev.id v2 u),
      currentIndex := u.currentIndex + 1 } : QuizState).currentIndex
      = s.currentIndex := by
    show u.currentIndex + 1 = s.currentIndex
    rw [huidx]
    exact harith
  have hWfind : (upsertAnswer u.answers (mkAnswerObject qprev.id v2 u)).find?
      (fun a => a.questionId == q.id) = none := by
    rw [find?_upsert_ne]
    · rw [huans]
      exact hnoans
    · show (mkAnswerObject qprev.id v2 u).questionId ≠ q.id
      simpa [mkAnswerObject] using hids
  have hscrut : (qs.get? ({ u with
      answers := upsertAnswer u.answers (mkAnswerObject qprev.id v2 u),
      currentIndex := u.currentIndex + 1 } : QuizState).currentIndex).bind
      (fun qq => ({ u with
        answers := upsertAnswer u.answers (mkAnswerObject qprev.id v2 u),
        currentIndex := u.currentIndex + 1 } : QuizState).answers.find?
          (fun a => a.questionId == qq.id)) = none := by
    rw [hWidx, hq]
    simpa using hWfind
  have hfin : handleNextClick qs finalCount u
      = { u with
          answers := upsertAnswer u.answers (mkAnswerObject qprev.id v2 u),
          currentIndex := u.currentIndex + 1,
          timer := none, isAutoAdvancing := false, selectedValue := none,
          isImportant := false, comment := "", isNuancing := false } := by
    rw [hnc, hadv]
    exact resetEffect_of_none qs _ hscrut
  refine ⟨hans1, hidx1, ?_, ?_, ?_, ?_, ?_, ?_⟩
  · rw [hfin]
    show u.currentIndex + 1 = s.currentIndex
    rw [huidx]
    exact harith
  · rw [hfin]
  · rw [hfin]
  · rw [hfin]
  · rw [hfin]
  · rw [hfin]
    exact hWfind

/-- Witness for C10: on two questions, after interacting on question 2
without committing and pressing Back, re-answering question 1 returns to
question 2 with no stored Answer for it. -/
theorem back_discards_uncommitted_witness :
    (handleNextClick [sampleQ 1, sampleQ 2] 50 (handleSelection 5
        (handleBack [sampleQ 1, sampleQ 2] (applyCaptureOps sampleQuizAtSecond
          [.select 4, .pause, .setComment "x", .toggleImportant])))).answers.find?
        (fun a => a.questionId == (sampleQ 2).id) = none :=
  (back_discards_uncommitted [sampleQ 1, sampleQ 2] 50 sampleQuizAtSecond
    [.select 4, .pause, .setComment "x", .toggleImportant] (sampleQ 2)
    (sampleQ 1) 5 (by decide) (by decide) (by decide) (by decide)
    (by decide)).2.2.2.2.2.2.2

end Valkompass
